import Mathlib

/-!
# Port Manager: verification of the `ub` port-conflict utilities

The repository ships only example scripts (`src/ub/examples/ub_examples.py`)
that call into the `ub` library: `check_port_available`,
`get_processes_using_port`, `find_available_port`, `handle_port_conflict`,
`start_server_with_port_handling`, the uvicorn/Flask wrappers and the
`reserve_port` context manager.  The library itself is not part of the
sources, so every operation below is modelled from the specification's
description of the Port Manager component.  The OS socket layer is
abstracted as an explicit environment (`OSEnv`) recording, for every
(host, port) pair, the outcome of a local bind probe, together with the
OS process table and whether process enumeration is available.
-/

/-- Modelled from the spec: outcome of the OS-level local bind probe on a
(host, port) pair — the bind succeeds, the port is already occupied by some
other process, or the OS denies the bind (e.g. a privileged port). -/
inductive ProbeResult where
  | ok
  | occupied
  | permissionDenied
deriving DecidableEq, Repr

/-- Modelled from the spec: a `ProcessInfo` record `{pid, name}` describing a
process found bound to a conflicting port. -/
structure ProcessInfo where
  pid : Nat
  name : String
deriving DecidableEq, Repr

/-- Modelled from the spec: the OS environment the Port Manager collaborates
with — the bind-probe behaviour of every (host, port) pair, the process
table mapping a port to the processes holding it, and whether OS-level
process enumeration is supported/permitted. -/
structure OSEnv where
  probe : String → Nat → ProbeResult
  procTable : Nat → List ProcessInfo
  enumAvailable : Bool

/-- Modelled from the spec: the local socket state of the Port Manager
process itself — the (host, port) pairs it currently holds bound.  Used to
express that a probe leaves no lingering bound socket. -/
structure SockState where
  bound : List (String × Nat)
deriving DecidableEq, Repr

/-- Modelled from the spec: the result of an attempted socket bind. -/
inductive BindOutcome where
  | bound
  | inUse
  | permDenied
deriving DecidableEq, Repr

/-- Modelled from the spec: attempt to bind a socket on (host, port).  The
bind succeeds when the OS probe reports the pair bindable and we do not
already hold it ourselves; on success the pair is added to our socket
state. -/
def try_bind (env : OSEnv) (s : SockState) (host : String) (port : Nat) :
    BindOutcome × SockState :=
  match env.probe host port with
  | ProbeResult.ok =>
      if (host, port) ∈ s.bound then (BindOutcome.inUse, s)
      else (BindOutcome.bound, ⟨(host, port) :: s.bound⟩)
  | ProbeResult.occupied => (BindOutcome.inUse, s)
  | ProbeResult.permissionDenied => (BindOutcome.permDenied, s)

/-- Modelled from the spec: close a socket we hold on (host, port),
removing it from our socket state. -/
def close_sock (s : SockState) (host : String) (port : Nat) : SockState :=
  ⟨s.bound.erase (host, port)⟩

/-- Modelled from the spec: `checkPortAvailable` as a bind probe threaded
through the local socket state — try to bind, and when the bind succeeded
immediately close the probe socket again.  Returns whether the pair was
bindable together with the resulting socket state. -/
def check_port_available_s (env : OSEnv) (s : SockState) (host : String) (port : Nat) :
    Bool × SockState :=
  match try_bind env s host port with
  | (BindOutcome.bound, s1) => (true, close_sock s1 host port)
  | (BindOutcome.inUse, s1) => (false, s1)
  | (BindOutcome.permDenied, s1) => (false, s1)

/-- Modelled from the spec: `checkPortAvailable(host, port) -> bool`, the
non-destructive bind probe, run from a fresh socket state.  Returns false —
rather than raising — both when the port is occupied and when the probe
hits a permission error. -/
def check_port_available (env : OSEnv) (host : String) (port : Nat) : Bool :=
  (check_port_available_s env ⟨[]⟩ host port).1

/-- Modelled from the spec: `getProcessesUsingPort(port)` — enumerate the
processes holding the port from the OS tables; degrade to the empty
sequence when enumeration is unsupported or denied, never fatally. -/
def get_processes_using_port (env : OSEnv) (port : Nat) : List ProcessInfo :=
  if env.enumAvailable then env.procTable port else []

/-- Modelled from the spec: the error conditions of the Port Manager;
`noPortAvailable` signals an exhausted scan range. -/
inductive PortError where
  | noPortAvailable
deriving DecidableEq, Repr

/-- Modelled from the spec: the default bound on the number of candidates
`findAvailablePort` probes. -/
def defaultMaxAttempts : Nat := 50

/-- Modelled from the spec: `findAvailablePort(startPort, maxAttempts)` —
scan upward from `startPort`, probing each candidate with
`checkPortAvailable`, returning the first free one, and failing with
`NoPortAvailable` once `maxAttempts` candidates were all occupied. -/
def find_available_port (env : OSEnv) (host : String) (startPort maxAttempts : Nat) :
    Except PortError Nat :=
  match maxAttempts with
  | 0 => Except.error PortError.noPortAvailable
  | Nat.succ n =>
      if check_port_available env host startPort then Except.ok startPort
      else find_available_port env host (startPort + 1) n

/-- Modelled from the spec: an observable side effect of conflict handling —
either an informational conflict report (desired port, service name and the
processes found holding the port) or a process termination.  The Port
Manager only ever emits reports. -/
inductive Effect where
  | reportConflict (port : Nat) (serviceName : String) (procs : List ProcessInfo)
  | terminateProcess (pid : Nat)
deriving DecidableEq, Repr

/-- Whether an effect is purely informational reporting. -/
def Effect.isReport : Effect → Bool
  | Effect.reportConflict _ _ _ => true
  | Effect.terminateProcess _ => false

/-- Modelled from the spec: `handlePortConflict(host, desiredPort,
serviceName)` — if the desired port is available return it unchanged with
no side effect; otherwise report the conflict (including the processes
found via `getProcessesUsingPort`) and return the result of
`findAvailablePort(desiredPort + 1)`.  The returned pair is the resolved
port and the list of emitted side effects. -/
def handle_port_conflict (env : OSEnv) (host : String) (desiredPort : Nat)
    (serviceName : String) : Except PortError Nat × List Effect :=
  if check_port_available env host desiredPort then
    (Except.ok desiredPort, [])
  else
    (find_available_port env host (desiredPort + 1) defaultMaxAttempts,
     [Effect.reportConflict desiredPort serviceName
        (get_processes_using_port env desiredPort)])

/-- Modelled from the spec: `reservePort(host, port, count)` — find `count`
distinct available ports scanning upward from `port`, each located with
`findAvailablePort` (so each is verified bindable at the instant of the
check), continuing the scan past each port found. -/
def reserve_port (env : OSEnv) (host : String) (startPort count maxAttempts : Nat) :
    Except PortError (List Nat) :=
  match count with
  | 0 => Except.ok []
  | Nat.succ c =>
      match find_available_port env host startPort maxAttempts with
      | Except.error e => Except.error e
      | Except.ok q =>
          match reserve_port env host (q + 1) c maxAttempts with
          | Except.error e => Except.error e
          | Except.ok rest => Except.ok (q :: rest)

/-- Modelled from the spec: the reservation bookkeeping of the Port
Manager process — which ports are currently held reserved. -/
structure ResState where
  reserved : List Nat
deriving DecidableEq, Repr

/-- Modelled from the spec: mark a list of ports reserved. -/
def acquire_ports (s : ResState) (ports : List Nat) : ResState :=
  ⟨s.reserved ++ ports⟩

/-- Modelled from the spec: release a list of ports from the reservation
bookkeeping. -/
def release_ports (s : ResState) (ports : List Nat) : ResState :=
  ⟨s.reserved.filter fun q => decide (q ∉ ports)⟩

/-- Modelled from the spec: the `reservePort` scoped resource — find the
requested ports, hold them reserved while the caller-supplied body runs,
and release them when the scope exits, on the normal path and on the error
path alike (the body's outcome, success or failure, is an `Except` and the
release happens regardless of it).  Returns the overall outcome together
with the final reservation state. -/
def with_reserve_port {ε α : Type} (env : OSEnv) (host : String)
    (startPort count maxAttempts : Nat) (s : ResState)
    (body : List Nat → Except ε α) : Except PortError (Except ε α) × ResState :=
  match reserve_port env host startPort count maxAttempts with
  | Except.error e => (Except.error e, s)
  | Except.ok ports =>
      (Except.ok (body ports), release_ports (acquire_ports s ports) ports)

/-- Modelled from the spec: `startServerWithPortHandling(startFn, host,
port, serviceName, ...opts)` — resolve a usable port via
`handlePortConflict`, then invoke the caller-supplied start function with
the host, the resolved port, and the caller's options passed through
unchanged. -/
def start_server_with_port_handling {Opts R : Type} (env : OSEnv)
    (startFn : String → Nat → Opts → R) (host : String) (port : Nat)
    (serviceName : String) (opts : Opts) : Except PortError R :=
  match (handle_port_conflict env host port serviceName).1 with
  | Except.error e => Except.error e
  | Except.ok q => Except.ok (startFn host q opts)

/-- Modelled from the spec: the uvicorn/FastAPI wrapper — a thin adapter
over `start_server_with_port_handling` whose start function runs the given
app with the resolved host and port, forwarding the framework-specific
options unchanged. -/
def start_uvicorn_with_port_handling {App Opts R : Type} (env : OSEnv)
    (run : App → String → Nat → Opts → R) (app : App) (host : String)
    (port : Nat) (opts : Opts) : Except PortError R :=
  start_server_with_port_handling env (fun h p o => run app h p o) host port
    "Uvicorn server" opts

/-- Modelled from the spec: the Flask wrapper — a thin adapter over
`start_server_with_port_handling`, analogous to the uvicorn one. -/
def start_flask_with_port_handling {App Opts R : Type} (env : OSEnv)
    (run : App → String → Nat → Opts → R) (app : App) (host : String)
    (port : Nat) (opts : Opts) : Except PortError R :=
  start_server_with_port_handling env (fun h p o => run app h p o) host port
    "Flask server" opts

/-- Sample environment: every (host, port) pair is bindable, no process
holds any port, enumeration is available. -/
def envAllFree : OSEnv :=
  ⟨fun _ _ => ProbeResult.ok, fun _ => [], true⟩

/-- Sample environment: port 8000 is occupied by another process, every
other port is free. -/
def envOcc8000 : OSEnv :=
  ⟨fun _ p => if p = 8000 then ProbeResult.occupied else ProbeResult.ok,
   fun p => if p = 8000 then [⟨4242, "other-server"⟩] else [], true⟩

/-- Sample environment: ports 8000 through 8050 are all occupied. -/
def envOccRange : OSEnv :=
  ⟨fun _ p => if 8000 ≤ p ∧ p ≤ 8050 then ProbeResult.occupied else ProbeResult.ok,
   fun _ => [], true⟩

/-- Sample environment: binds to ports below 1024 are denied by the OS,
all other ports are free. -/
def envPrivDenied : OSEnv :=
  ⟨fun _ p => if p < 1024 then ProbeResult.permissionDenied else ProbeResult.ok,
   fun _ => [], true⟩

/-- Sample environment: port 8000 is occupied but OS process enumeration is
unsupported/denied. -/
def envNoEnum : OSEnv :=
  ⟨fun _ p => if p = 8000 then ProbeResult.occupied else ProbeResult.ok,
   fun p => if p = 8000 then [⟨4242, "other-server"⟩] else [], false⟩

/-- Sample reservation-scope body that returns normally. -/
def body_ok : List Nat → Except Unit Nat :=
  fun _ => Except.ok 0

/-- Sample reservation-scope body that exits with an error. -/
def body_err : List Nat → Except Unit Nat :=
  fun _ => Except.error ()

/-- Sample start function that records the host, port and options it was
invoked with. -/
def record_start : String → Nat → Nat → String × Nat × Nat :=
  fun h p o => (h, p, o)

/-- Sample framework run function that records the host, port and options
it was invoked with, ignoring the app. -/
def record_run : Unit → String → Nat → Nat → String × Nat × Nat :=
  fun _ h p o => (h, p, o)

/-! ## Helper lemmas -/

lemma find_available_port_succ (env : OSEnv) (host : String) (p m : Nat) :
    find_available_port env host p (m + 1) =
      if check_port_available env host p then Except.ok p
      else find_available_port env host (p + 1) m := rfl

lemma find_available_port_ok_ge (env : OSEnv) (host : String) :
    ∀ m p q, find_available_port env host p m = Except.ok q → p ≤ q := by
  intro m
  induction m with
  | zero => intro p q h; exact absurd h (by simp [find_available_port])
  | succ n ih =>
      intro p q h
      rw [find_available_port_succ] at h
      by_cases hc : check_port_available env host p
      · rw [if_pos hc] at h
        injection h with h
        omega
      · rw [if_neg hc] at h
        have := ih (p + 1) q h
        omega

lemma find_available_port_ok_avail (env : OSEnv) (host : String) :
    ∀ m p q, find_available_port env host p m = Except.ok q →
      check_port_available env host q = true := by
  intro m
  induction m with
  | zero => intro p q h; exact absurd h (by simp [find_available_port])
  | succ n ih =>
      intro p q h
      rw [find_available_port_succ] at h
      by_cases hc : check_port_available env host p
      · rw [if_pos hc] at h
        injection h with h
        rw [← h]
        exact hc
      · rw [if_neg hc] at h
        exact ih (p + 1) q h

lemma find_available_port_ok_first (env : OSEnv) (host : String) :
    ∀ m p q, find_available_port env host p m = Except.ok q →
      ∀ r, p ≤ r → r < q → check_port_available env host r = false := by
  intro m
  induction m with
  | zero => intro p q h; exact absurd h (by simp [find_available_port])
  | succ n ih =>
      intro p q h r hpr hrq
      rw [find_available_port_succ] at h
      by_cases hc : check_port_available env host p
      · rw [if_pos hc] at h
        injection h with h
        omega
      · rw [if_neg hc] at h
        rcases Nat.eq_or_lt_of_le hpr with heq | hlt
        · rw [← heq]
          exact Bool.eq_false_iff.mpr hc
        · exact ih (p + 1) q h r hlt hrq

lemma reserve_port_succ (env : OSEnv) (host : String) (p c m : Nat) :
    reserve_port env host p (c + 1) m =
      match find_available_port env host p m with
      | Except.error e => Except.error e
      | Except.ok q =>
          match reserve_port env host (q + 1) c m with
          | Except.error e => Except.error e
          | Except.ok rest => Except.ok (q :: rest) := rfl

lemma reserve_port_spec_aux (env : OSEnv) (host : String) (m : Nat) :
    ∀ c p l, reserve_port env host p c m = Except.ok l →
      l.length = c ∧ (∀ q ∈ l, p ≤ q ∧ check_port_available env host q = true) ∧
        l.Nodup := by
  intro c
  induction c with
  | zero =>
      intro p l h
      injection h with h
      rw [← h]
      simp
  | succ c ih =>
      intro p l h
      rw [reserve_port_succ] at h
      cases hfa : find_available_port env host p m with
      | error e => rw [hfa] at h; exact absurd h (by simp)
      | ok q =>
          rw [hfa] at h
          dsimp only at h
          cases hrp : reserve_port env host (q + 1) c m with
          | error e => rw [hrp] at h; exact absurd h (by simp)
          | ok rest =>
              rw [hrp] at h
              injection h with h
              rw [← h]
              obtain ⟨hlen, hmem, hnd⟩ := ih (q + 1) rest hrp
              have hpq := find_available_port_ok_ge env host m p q hfa
              have hqav := find_available_port_ok_avail env host m p q hfa
              refine ⟨by simp [hlen], ?_, ?_⟩
              · intro x hx
                rcases List.mem_cons.mp hx with hx | hx
                · rw [hx]; exact ⟨hpq, hqav⟩
                · obtain ⟨h1, h2⟩ := hmem x hx
                  exact ⟨by omega, h2⟩
              · refine List.nodup_cons.mpr ⟨?_, hnd⟩
                intro hqmem
                obtain ⟨h1, _⟩ := hmem q hqmem
                omega

lemma handle_port_conflict_fst_name_indep (env : OSEnv) (host : String)
    (p : Nat) (n n' : String) :
    (handle_port_conflict env host p n).1 = (handle_port_conflict env host p n').1 := by
  by_cases hc : check_port_available env host p <;> simp [handle_port_conflict, hc]

/-! ## Claim theorems -/

/-- Claim C1: for every host `h`, port `p` and service name `n`, if
`checkPortAvailable(h, p)` is true then `handlePortConflict(h, p, n)`
returns `p` unchanged. -/
theorem handle_port_conflict_returns_available_port (env : OSEnv)
    (host : String) (p : Nat) (name : String)
    (hp : check_port_available env host p = true) :
    (handle_port_conflict env host p name).1 = Except.ok p := by
  simp [handle_port_conflict, hp]

/-- Witness for C1 at a concrete environment where port 8000 is free. -/
theorem handle_port_conflict_returns_available_port_witness :
    (handle_port_conflict envAllFree "0.0.0.0" 8000 "My Custom API").1 =
      Except.ok 8000 :=
  handle_port_conflict_returns_available_port envAllFree "0.0.0.0" 8000
    "My Custom API" (by decide)

/-- Claim C2: whenever `findAvailablePort(p)` returns an integer `q`, that
integer is at least `p`, is itself free, and every candidate scanned
before it (every `r` with `p ≤ r < q`) was found occupied — `q` is the
first free candidate of the upward scan. -/
theorem find_available_port_first_free (env : OSEnv) (host : String)
    (p m q : Nat) (hq : find_available_port env host p m = Except.ok q) :
    p ≤ q ∧ check_port_available env host q = true ∧
      ∀ r, p ≤ r → r < q → check_port_available env host r = false :=
  ⟨find_available_port_ok_ge env host m p q hq,
   find_available_port_ok_avail env host m p q hq,
   find_available_port_ok_first env host m p q hq⟩

/-- Witness for C2: with port 8000 occupied and 8001 free, the scan from
8000 returns 8001, which is ≥ 8000, free, and preceded only by the
occupied candidate 8000. -/
theorem find_available_port_first_free_witness :
    (8000 : Nat) ≤ 8001 ∧
      check_port_available envOcc8000 "0.0.0.0" 8001 = true ∧
      check_port_available envOcc8000 "0.0.0.0" 8000 = false := by
  have h := find_available_port_first_free envOcc8000 "0.0.0.0" 8000 50 8001
    (by rfl)
  exact ⟨h.1, h.2.1, h.2.2 8000 (Nat.le_refl _) (by decide)⟩

/-- Claim C3: if all `maxAttempts` candidate ports scanned upward from `p`
are occupied, `findAvailablePort(p, maxAttempts)` fails with the explicit
`NoPortAvailable` error condition rather than returning any port. -/
theorem find_available_port_exhausted (env : OSEnv) (host : String)
    (p m : Nat)
    (hall : ∀ i, i < m → check_port_available env host (p + i) = false) :
    find_available_port env host p m = Except.error PortError.noPortAvailable := by
  have key : ∀ m' p',
      (∀ i, i < m' → check_port_available env host (p' + i) = false) →
      find_available_port env host p' m' =
        Except.error PortError.noPortAvailable := by
    intro m'
    induction m' with
    | zero => intro p' _; rfl
    | succ n ih =>
        intro p' h'
        rw [find_available_port_succ]
        have h0 : check_port_available env host p' = false := by
          have := h' 0 (Nat.succ_pos n)
          simpa using this
        rw [h0]
        simp only [Bool.false_eq_true, if_false]
        refine ih (p' + 1) ?_
        intro i hi
        have := h' (i + 1) (Nat.succ_lt_succ hi)
        have harith : p' + (i + 1) = p' + 1 + i := by omega
        rw [harith] at this
        exact this
  exact key m p hall

/-- Witness for C3: with ports 8000 through 8050 all occupied,
`findAvailablePort(8000, maxAttempts = 50)` fails with `NoPortAvailable`. -/
theorem find_available_port_exhausted_witness :
    find_available_port envOccRange "0.0.0.0" 8000 50 =
      Except.error PortError.noPortAvailable :=
  find_available_port_exhausted envOccRange "0.0.0.0" 8000 50 (by decide)

/-- Claim C4: whenever `reservePort(h, p, count = c)` yields a list of
ports, it yields exactly `c` of them, pairwise distinct, each no less than
`p` and each verified available by `checkPortAvailable` at the instant of
the check. -/
theorem reserve_port_yields_distinct_available (env : OSEnv) (host : String)
    (p c m : Nat) (l : List Nat)
    (h : reserve_port env host p c m = Except.ok l) :
    l.length = c ∧
      (∀ q ∈ l, p ≤ q ∧ check_port_available env host q = true) ∧
      l.Nodup :=
  reserve_port_spec_aux env host m c p l h

/-- Witness for C4: with every port free, `reservePort("0.0.0.0", 8000,
count = 3)` yields the 3 distinct ports 8000, 8001, 8002, each checked
available. -/
theorem reserve_port_yields_distinct_available_witness :
    ([8000, 8001, 8002] : List Nat).length = 3 ∧
      check_port_available envAllFree "0.0.0.0" 8001 = true ∧
      ([8000, 8001, 8002] : List Nat).Nodup := by
  have h := reserve_port_yields_distinct_available envAllFree "0.0.0.0"
    8000 3 50 [8000, 8001, 8002] (by rfl)
  exact ⟨h.1, (h.2.1 8001 (by simp)).2, h.2.2⟩

/-- Claim C5: if `checkPortAvailable(h, p)` is false then
`handlePortConflict(h, p, n)` returns exactly the result of
`findAvailablePort(p + 1)`, and its side effects are exactly one
informational conflict report carrying the desired port, the service name
and the processes discovered via `getProcessesUsingPort` — in particular
the conflict is reported, and no other side effect (no process
termination) occurs. -/
theorem handle_port_conflict_on_conflict (env : OSEnv) (host : String)
    (p : Nat) (name : String)
    (hp : check_port_available env host p = false) :
    (handle_port_conflict env host p name).1 =
        find_available_port env host (p + 1) defaultMaxAttempts ∧
      (handle_port_conflict env host p name).2 =
        [Effect.reportConflict p name (get_processes_using_port env p)] := by
  constructor
  · simp [handle_port_conflict, hp]
  · simp [handle_port_conflict, hp]

/-- Witness for C5: with port 8000 occupied and 8001, 8002 free,
`handlePortConflict("0.0.0.0", 8000, "svc")` returns 8001 and emits
exactly the conflict report naming the occupying process. -/
theorem handle_port_conflict_on_conflict_witness :
    (handle_port_conflict envOcc8000 "0.0.0.0" 8000 "svc").1 = Except.ok 8001 ∧
      (handle_port_conflict envOcc8000 "0.0.0.0" 8000 "svc").2 =
        [Effect.reportConflict 8000 "svc" [⟨4242, "other-server"⟩]] := by
  have h := handle_port_conflict_on_conflict envOcc8000 "0.0.0.0" 8000 "svc"
    (by decide)
  constructor
  · rw [h.1]
    rfl
  · rw [h.2]
    rfl

/-- Claim C6: `getProcessesUsingPort(p)` never fails fatally — it returns
the empty sequence both when no process holds `p` and when OS-level
enumeration is unsupported or denied. -/
theorem get_processes_using_port_graceful (env : OSEnv) (p : Nat)
    (h : env.procTable p = [] ∨ env.enumAvailable = false) :
    get_processes_using_port env p = [] := by
  rcases h with h | h
  · simp [get_processes_using_port, h]
  · simp [get_processes_using_port, h]

/-- Witness for C6: on an unoccupied port the enumeration is empty, and
with enumeration unavailable it is empty as well even though a process
holds the port. -/
theorem get_processes_using_port_graceful_witness :
    get_processes_using_port envAllFree 9999 = [] ∧
      get_processes_using_port envNoEnum 8000 = [] :=
  ⟨get_processes_using_port_graceful envAllFree 9999 (Or.inl rfl),
   get_processes_using_port_graceful envNoEnum 8000 (Or.inr rfl)⟩

/-- Claim C7: when the bind probe on (h, p) hits a permission error,
`checkPortAvailable(h, p)` returns false (the function is total over its
`Bool` codomain — it never raises). -/
theorem check_port_available_permission_denied (env : OSEnv) (host : String)
    (p : Nat) (hp : env.probe host p = ProbeResult.permissionDenied) :
    check_port_available env host p = false := by
  simp [check_port_available, check_port_available_s, try_bind, hp]

/-- Witness for C7: probing privileged port 80 under an OS that denies the
bind yields false. -/
theorem check_port_available_permission_denied_witness :
    check_port_available envPrivDenied "0.0.0.0" 80 = false :=
  check_port_available_permission_denied envPrivDenied "0.0.0.0" 80 (by decide)

/-- Claim C8: `checkPortAvailable` is a side-effect-free inspection — run
from any socket state it returns that state unchanged (no lingering bound
socket, no mutated shared state), and whenever it reports a port free, a
bind attempt on the same (host, port) performed immediately afterwards (in
the unchanged environment) succeeds. -/
theorem check_port_available_stateless (env : OSEnv) (s : SockState)
    (host : String) (p : Nat) :
    (check_port_available_s env s host p).2 = s ∧
      ((check_port_available_s env s host p).1 = true →
        (try_bind env (check_port_available_s env s host p).2 host p).1 =
          BindOutcome.bound) := by
  cases s with
  | mk bnd =>
      cases hpr : env.probe host p with
      | ok =>
          by_cases hmem : (host, p) ∈ bnd
          · constructor
            · simp [check_port_available_s, try_bind, hpr, hmem]
            · intro htrue
              exfalso
              simp [check_port_available_s, try_bind, hpr, hmem] at htrue
          · have h2 : (check_port_available_s env ⟨bnd⟩ host p).2 = ⟨bnd⟩ := by
              simp [check_port_available_s, try_bind, hpr, hmem, close_sock]
            refine ⟨h2, ?_⟩
            intro _
            rw [h2]
            simp [try_bind, hpr, hmem]
      | occupied =>
          constructor
          · simp [check_port_available_s, try_bind, hpr]
          · intro htrue
            exfalso
            simp [check_port_available_s, try_bind, hpr] at htrue
      | permissionDenied =>
          constructor
          · simp [check_port_available_s, try_bind, hpr]
          · intro htrue
            exfalso
            simp [check_port_available_s, try_bind, hpr] at htrue

/-- Witness for C8: from a fresh socket state against a free port, the
probe leaves the state unchanged and the immediate re-bind succeeds. -/
theorem check_port_available_stateless_witness :
    (check_port_available_s envAllFree ⟨[]⟩ "localhost" 8000).2 = ⟨[]⟩ ∧
      (try_bind envAllFree
        (check_port_available_s envAllFree ⟨[]⟩ "localhost" 8000).2
        "localhost" 8000).1 = BindOutcome.bound := by
  have h := check_port_available_stateless envAllFree ⟨[]⟩ "localhost" 8000
  exact ⟨h.1, h.2 (by decide)⟩

/-- Claim C9: for every reservation scope, the reserved ports are absent
from the reservation bookkeeping after the scope exits, for every body —
whether it returns normally or exits with an error — so no port stays in a
phantom reserved state. -/
theorem with_reserve_port_releases {ε α : Type} (env : OSEnv) (host : String)
    (p c m : Nat) (s : ResState) (body : List Nat → Except ε α)
    (ports : List Nat)
    (hres : reserve_port env host p c m = Except.ok ports) :
    ∀ q ∈ ports, q ∉ ((with_reserve_port env host p c m s body).2).reserved := by
  intro q hq
  have hstate : (with_reserve_port env host p c m s body).2 =
      release_ports (acquire_ports s ports) ports := by
    simp [with_reserve_port, hres]
  rw [hstate]
  intro hmem
  have hf := List.mem_filter.mp hmem
  exact (of_decide_eq_true hf.2) hq

/-- Witness for C9: reserving one port (8000) and running a body that
returns normally, and one that errors, leaves 8000 unreserved in both
final states. -/
theorem with_reserve_port_releases_witness :
    8000 ∉ ((with_reserve_port envAllFree "0.0.0.0" 8000 1 50 ⟨[]⟩
        body_ok).2).reserved ∧
      8000 ∉ ((with_reserve_port envAllFree "0.0.0.0" 8000 1 50 ⟨[]⟩
        body_err).2).reserved :=
  ⟨with_reserve_port_releases envAllFree "0.0.0.0" 8000 1 50 ⟨[]⟩ body_ok
      [8000] (by rfl) 8000 (by simp),
   with_reserve_port_releases envAllFree "0.0.0.0" 8000 1 50 ⟨[]⟩ body_err
      [8000] (by rfl) 8000 (by simp)⟩

/-- Claim C10: whenever port resolution succeeds with resolved port `q`,
`startServerWithPortHandling` invokes the caller-supplied start function
with the host and the resolved port injected and the caller's options
passed through unchanged, and the uvicorn and Flask wrappers invoke the
framework run function the same way — for every start function, every run
function and every options value. -/
theorem start_server_with_port_handling_passthrough {App Opts R : Type}
    (env : OSEnv) (startFn : String → Nat → Opts → R)
    (run : App → String → Nat → Opts → R) (app : App) (host : String)
    (p : Nat) (n : String) (opts : Opts) (q : Nat)
    (hq : (handle_port_conflict env host p n).1 = Except.ok q) :
    start_server_with_port_handling env startFn host p n opts =
        Except.ok (startFn host q opts) ∧
      start_uvicorn_with_port_handling env run app host p opts =
        Except.ok (run app host q opts) ∧
      start_flask_with_port_handling env run app host p opts =
        Except.ok (run app host q opts) := by
  have hu : (handle_port_conflict env host p "Uvicorn server").1 = Except.ok q :=
    (handle_port_conflict_fst_name_indep env host p "Uvicorn server" n).trans hq
  have hf : (handle_port_conflict env host p "Flask server").1 = Except.ok q :=
    (handle_port_conflict_fst_name_indep env host p "Flask server" n).trans hq
  refine ⟨?_, ?_, ?_⟩
  · simp [start_server_with_port_handling, hq]
  · simp [start_uvicorn_with_port_handling, start_server_with_port_handling, hu]
  · simp [start_flask_with_port_handling, start_server_with_port_handling, hf]

/-- Witness for C10: with every port free, the generic operation and both
wrappers invoke recording start functions with host "0.0.0.0", the
resolved port 8080, and the option value 7 unchanged. -/
theorem start_server_with_port_handling_passthrough_witness :
    start_server_with_port_handling envAllFree record_start "0.0.0.0" 8080
        "Simple HTTP Server" 7 = Except.ok ("0.0.0.0", 8080, 7) ∧
      start_uvicorn_with_port_handling envAllFree record_run () "0.0.0.0"
        8080 7 = Except.ok ("0.0.0.0", 8080, 7) ∧
      start_flask_with_port_handling envAllFree record_run () "0.0.0.0"
        8080 7 = Except.ok ("0.0.0.0", 8080, 7) :=
  start_server_with_port_handling_passthrough envAllFree record_start
    record_run () "0.0.0.0" 8080 "Simple HTTP Server" 7 8080 (by rfl)
